import Mathlib

/-
Shallow embedding of res_kafka.c (Asterisk Kafka resource module).

The module reads cluster/producer/consumer/topic definitions from the
sorcery configuration store and, in process_all_clusters, walks
clusters, their producers/consumers and their topics, creating rdkafka
client and topic handles through librdkafka.

Modelling conventions:
- The sorcery store is an external collaborator; it is modelled as a
  total snapshot (KafkaConf) and ast_sorcery_retrieve_by_fields with a
  field filter is List.filter over that snapshot.  A NULL container
  from retrieval only logs a warning in the C code and skips the loop;
  the total model uses the always-available snapshot.
- librdkafka and the ao2 allocator are external; their success or
  failure at each call site is injected through RdEnv flags.  Calls
  whose return value only feeds a log message (rd_kafka_produce result,
  rd_kafka_flush result) have no flag.
- ao2 reference counts are carried on the record values themselves
  (KafkaProducer.rc, KafkaProducerTopic.rc); no record is ever aliased
  across functions in the C code, so value passing is faithful.
  Topic records are appended to ModState.topicRecs once their refcount
  has stabilised (at destruction, or when the creating scope drops its
  reference), so the final state shows every record ever allocated
  together with its final reference count.
- Observable library activity is recorded in a trace of events.
- Reading a field through a NULL pointer (the missing NULL check in
  process_producer_topic) is modelled as Except.error Crash.nullDeref,
  which aborts the rest of the pass exactly as a segfault would.
-/

namespace ResKafka

/-- Role of an rdkafka client handle: RD_KAFKA_PRODUCER or RD_KAFKA_CONSUMER. -/
inductive Role where
  | producer
  | consumer
deriving DecidableEq, Repr

/-- struct sorcery_kafka_cluster: configuration record for a cluster. -/
structure SorceryKafkaCluster where
  id : String
  brokers : String
  security_protocol : String
  sasl_mechanism : String
  sasl_username : String
  sasl_password : String
  client_id : String
  port : Nat
  ssl : Bool
deriving DecidableEq, Repr

/-- struct sorcery_kafka_producer: configuration record for a producer. -/
structure SorceryKafkaProducer where
  id : String
  cluster_id : String
deriving DecidableEq, Repr

/-- struct sorcery_kafka_consumer: configuration record for a consumer. -/
structure SorceryKafkaConsumer where
  id : String
  cluster_id : String
deriving DecidableEq, Repr

/-- struct sorcery_kafka_topic: configuration record for a topic. -/
structure SorceryKafkaTopic where
  id : String
  topic : String
  producer_id : String
  consumer_id : String
deriving DecidableEq, Repr

/-- Snapshot of the sorcery store contents (kafka.conf). -/
structure KafkaConf where
  clusters : List SorceryKafkaCluster
  producers : List SorceryKafkaProducer
  consumers : List SorceryKafkaConsumer
  topics : List SorceryKafkaTopic
deriving DecidableEq, Repr

/-- Observable librdkafka activity. -/
inductive Event where
  /-- rd_kafka_conf_set key value, with the library verdict. -/
  | confSet (key value : String) (ok : Bool)
  /-- rd_kafka_new for the given cluster and role, with the library verdict. -/
  | clientNew (clusterId : String) (role : Role) (ok : Bool)
  /-- rd_kafka_destroy of the client built for the given cluster and role. -/
  | clientDestroy (clusterId : String) (role : Role)
  /-- rd_kafka_topic_new for the given topic name, with the library verdict. -/
  | topicNew (topicName : String) (ok : Bool)
  /-- rd_kafka_topic_destroy for the given topic name. -/
  | topicDestroy (topicName : String)
  /-- rd_kafka_produce on the given topic with partition and payload. -/
  | produceMsg (topicName : String) (partition : Int) (payload : String)
  /-- rd_kafka_flush with the given timeout in milliseconds. -/
  | flushCall (timeoutMs : Nat)
deriving DecidableEq, Repr

/-- struct kafka_producer together with its ao2 bookkeeping.  rc is the
ao2 reference count, hasRd tells whether the rd_kafka field is non-NULL,
clusterId labels which cluster the handle was built for (used only to
label trace events). -/
structure KafkaProducer where
  rc : Nat
  hasRd : Bool
  clusterId : String
deriving DecidableEq, Repr

/-- struct kafka_producer_topic together with its ao2 bookkeeping. -/
structure KafkaProducerTopic where
  rc : Nat
  hasRd : Bool
  topicName : String
deriving DecidableEq, Repr

/-- Module-level observable state: every topic record ever allocated
(with its final reference count) and the trace of library events. -/
structure ModState where
  topicRecs : List KafkaProducerTopic
  trace : List Event
deriving DecidableEq, Repr

/-- State at module load, before any processing. -/
def ModState.init : ModState := { topicRecs := [], trace := [] }

/-- Append one library event to the trace. -/
def emit (e : Event) (st : ModState) : ModState :=
  { st with trace := st.trace ++ [e] }

/-- Failure injection for the external calls: each flag gives the
verdict of the corresponding librdkafka or ao2 allocation call. -/
structure RdEnv where
  /-- rd_kafka_conf_new returns non-NULL. -/
  confNewOk : Bool
  /-- rd_kafka_conf_set verdict by key and value. -/
  confSetOk : String → String → Bool
  /-- rd_kafka_new verdict given the built configuration. -/
  rdNewOk : List (String × String) → Bool
  /-- ao2_alloc of struct kafka_producer succeeds. -/
  allocProducerOk : Bool
  /-- rd_kafka_topic_conf_new returns non-NULL. -/
  topicConfNewOk : Bool
  /-- ao2_alloc of struct kafka_producer_topic succeeds. -/
  allocTopicOk : Bool
  /-- rd_kafka_topic_new verdict by topic name. -/
  topicNewOk : String → Bool

/-- Contents of an rd_kafka_conf_t: the key/value pairs in set order. -/
abbrev RdConf := List (String × String)

/-- build_rdkafka_cluster_config: creates a config object and sets the
five cluster fields through rd_kafka_conf_set in source order, returning
NULL (none) as soon as the library rejects one; the module itself never
inspects or validates the field values. -/
def build_rdkafka_cluster_config (env : RdEnv) (cluster : SorceryKafkaCluster)
    (st : ModState) : Option RdConf × ModState :=
  if env.confNewOk then
    let ok1 := env.confSetOk "metadata.broker.list" cluster.brokers
    let st := emit (Event.confSet "metadata.broker.list" cluster.brokers ok1) st
    if ok1 then
      let ok2 := env.confSetOk "security.protocol" cluster.security_protocol
      let st := emit (Event.confSet "security.protocol" cluster.security_protocol ok2) st
      if ok2 then
        let ok3 := env.confSetOk "sasl.mechanism" cluster.sasl_mechanism
        let st := emit (Event.confSet "sasl.mechanism" cluster.sasl_mechanism ok3) st
        if ok3 then
          let ok4 := env.confSetOk "sasl.username" cluster.sasl_username
          let st := emit (Event.confSet "sasl.username" cluster.sasl_username ok4) st
          if ok4 then
            let ok5 := env.confSetOk "sasl.password" cluster.sasl_password
            let st := emit (Event.confSet "sasl.password" cluster.sasl_password ok5) st
            if ok5 then
              (some [("metadata.broker.list", cluster.brokers),
                     ("security.protocol", cluster.security_protocol),
                     ("sasl.mechanism", cluster.sasl_mechanism),
                     ("sasl.username", cluster.sasl_username),
                     ("sasl.password", cluster.sasl_password)], st)
            else (none, st)
          else (none, st)
        else (none, st)
      else (none, st)
    else (none, st)
  else (none, st)

/-- kafka_producer_destructor: destroys the rd_kafka_t handle if set. -/
def kafka_producer_destructor (p : KafkaProducer) (st : ModState) : ModState :=
  if p.hasRd then emit (Event.clientDestroy p.clusterId Role.producer) st else st

/-- ao2_ref(producer, -1): drop one reference; the destructor runs when
the count reaches zero. -/
def release_kafka_producer (p : KafkaProducer) (st : ModState) :
    KafkaProducer × ModState :=
  let rc := p.rc - 1
  if rc = 0 then ({ p with rc := 0 }, kafka_producer_destructor p st)
  else ({ p with rc := rc }, st)

/-- new_kafka_producer: builds the cluster config, allocates the record
and calls rd_kafka_new; on any failure the config is destroyed, the
record (if allocated) is released, and NULL (none) is returned. -/
def new_kafka_producer (env : RdEnv) (sorcery_cluster : SorceryKafkaCluster)
    (sorcery_producer : SorceryKafkaProducer) (st : ModState) :
    Option KafkaProducer × ModState :=
  match build_rdkafka_cluster_config env sorcery_cluster st with
  | (none, st) => (none, st)
  | (some config, st) =>
    if env.allocProducerOk then
      let ok := env.rdNewOk config
      let st := emit (Event.clientNew sorcery_cluster.id Role.producer ok) st
      if ok then
        (some { rc := 1, hasRd := true, clusterId := sorcery_cluster.id }, st)
      else
        -- rd_kafka_conf_destroy(config); ao2_cleanup drops rc 1 to 0;
        -- the destructor finds rd_kafka NULL and destroys nothing
        (none, st)
    else
      -- out of memory: rd_kafka_conf_destroy(config); ao2_cleanup(NULL)
      (none, st)

/-- kafka_producer_topic_destructor: destroys the rd_kafka_topic_t
handle if set. -/
def kafka_producer_topic_destructor (t : KafkaProducerTopic) (st : ModState) : ModState :=
  if t.hasRd then emit (Event.topicDestroy t.topicName) st else st

/-- ao2_ref(topic, -1): drop one reference; the destructor runs when the
count reaches zero. -/
def release_kafka_producer_topic (t : KafkaProducerTopic) (st : ModState) :
    KafkaProducerTopic × ModState :=
  let rc := t.rc - 1
  if rc = 0 then ({ t with rc := 0 }, kafka_producer_topic_destructor t st)
  else ({ t with rc := rc }, st)

/-- Abnormal termination of the process. -/
inductive Crash where
  /-- a field read through a NULL pointer. -/
  | nullDeref
deriving DecidableEq, Repr

/-- new_kafka_producer_topic: allocates the record (rc 1, handle NULL),
creates a topic config, registers the record itself as the callback
opaque and takes the commented extra retain (rc 2), then calls
rd_kafka_topic_new.  On success the record is returned with rc 2; on
failure the extra retain and the original allocation are dropped and
NULL (none) is returned.  Dead or dropped records are appended to
topicRecs by whichever scope saw their count stabilise. -/
def new_kafka_producer_topic (env : RdEnv) (producer : KafkaProducer)
    (sorcery_topic : SorceryKafkaTopic) (st : ModState) :
    Option KafkaProducerTopic × ModState :=
  if env.allocTopicOk then
    let topic : KafkaProducerTopic := { rc := 1, hasRd := false, topicName := sorcery_topic.topic }
    if env.topicConfNewOk then
      -- rd_kafka_topic_conf_set_opaque(config, topic); ao2_ref(topic, +1)
      let topic := { topic with rc := topic.rc + 1 }
      let ok := env.topicNewOk sorcery_topic.topic
      let st := emit (Event.topicNew sorcery_topic.topic ok) st
      if ok then
        (some { topic with hasRd := true }, st)
      else
        -- rd_kafka_topic_conf_destroy(config); ao2_ref(-1); ao2_ref(-1)
        let r1 := release_kafka_producer_topic topic st
        let r2 := release_kafka_producer_topic r1.1 r1.2
        (none, { r2.2 with topicRecs := r2.2.topicRecs ++ [r2.1] })
    else
      -- config NULL: ao2_ref(topic, -1) and return NULL
      let r1 := release_kafka_producer_topic topic st
      (none, { r1.2 with topicRecs := r1.2.topicRecs ++ [r1.1] })
  else
    (none, st)

/-- process_producer_topic: binds the topic and then, on the same path,
produces the hard-coded message "test" with RD_KAFKA_PARTITION_UA and
flushes the producer client with a 10000 ms timeout; the topic record
then loses the binder reference (ao2_cleanup), leaving rc 1.  The NULL
result of new_kafka_producer_topic is not checked: the following
rd_kafka_produce reads topic->rd_kafka_topic through NULL and crashes. -/
def process_producer_topic (env : RdEnv) (producer : KafkaProducer)
    (sorcery_topic : SorceryKafkaTopic) (st : ModState) : Except Crash ModState :=
  match new_kafka_producer_topic env producer sorcery_topic st with
  | (none, _) => Except.error Crash.nullDeref
  | (some topic, st) =>
    -- rd_kafka_produce(topic->rd_kafka_topic, RD_KAFKA_PARTITION_UA,
    --                  RD_KAFKA_MSG_F_COPY, "test", 4, NULL, 0, NULL);
    -- a produce failure is only logged
    let st := emit (Event.produceMsg topic.topicName (-1) "test") st
    -- rd_kafka_flush(producer->rd_kafka, 10000); the result check is
    -- inverted in the source and in any case only logs
    let st := emit (Event.flushCall 10000) st
    -- ao2_cleanup(topic): rc 2 drops to 1; the record survives
    let r := release_kafka_producer_topic topic st
    Except.ok { r.2 with topicRecs := r.2.topicRecs ++ [r.1] }

/-- process_consumer_topic: only a debug log; no state change. -/
def process_consumer_topic (_cluster : SorceryKafkaCluster)
    (_consumer : SorceryKafkaConsumer) (_topic : SorceryKafkaTopic)
    (st : ModState) : ModState := st

/-- Loop body of process_producer over the retrieved topics; a crash in
one iteration aborts the process, any other outcome continues. -/
def process_producer_topics (env : RdEnv) (producer : KafkaProducer) :
    List SorceryKafkaTopic → ModState → Except Crash ModState
  | [], st => Except.ok st
  | t :: rest, st =>
    match process_producer_topic env producer t st with
    | Except.error c => Except.error c
    | Except.ok st => process_producer_topics env producer rest st

/-- process_producer: retrieves the topics referencing this producer;
when at least one exists it creates the producer client, binds every
topic, and finally drops its reference to the client (rc 1 to 0), which
destroys the client before returning. -/
def process_producer (env : RdEnv) (conf : KafkaConf)
    (sorcery_cluster : SorceryKafkaCluster) (sorcery_producer : SorceryKafkaProducer)
    (st : ModState) : Except Crash (Int × ModState) :=
  let found := conf.topics.filter (fun t => t.producer_id == sorcery_producer.id)
  if found.isEmpty then
    Except.ok (0, st)
  else
    match new_kafka_producer env sorcery_cluster sorcery_producer st with
    | (none, st) => Except.ok (-1, st)
    | (some producer, st) =>
      match process_producer_topics env producer found st with
      | Except.error c => Except.error c
      | Except.ok st => Except.ok (0, (release_kafka_producer producer st).2)

/-- process_consumer: builds and immediately destroys the cluster
config (twice when topics exist), then only debug-logs each topic; no
client or topic handle is ever created on the consumer side. -/
def process_consumer (env : RdEnv) (conf : KafkaConf)
    (cluster : SorceryKafkaCluster) (consumer : SorceryKafkaConsumer)
    (st : ModState) : Except Crash (Int × ModState) :=
  match build_rdkafka_cluster_config env cluster st with
  | (none, st) => Except.ok (-1, st)
  | (some _, st) =>
    -- rd_kafka_conf_destroy(config)
    let found := conf.topics.filter (fun t => t.consumer_id == consumer.id)
    if found.isEmpty then
      Except.ok (0, st)
    else
      match build_rdkafka_cluster_config env cluster st with
      | (none, st) => Except.ok (-1, st)
      | (some _, st) =>
        -- rd_kafka_conf_destroy(config) again, then the topic loop
        let st := found.foldl (fun acc t => process_consumer_topic cluster consumer t acc) st
        Except.ok (0, st)

/-- Loop body of process_cluster over the retrieved producers; the int
result of process_producer is ignored by the caller. -/
def process_cluster_producers (env : RdEnv) (conf : KafkaConf)
    (cluster : SorceryKafkaCluster) :
    List SorceryKafkaProducer → ModState → Except Crash ModState
  | [], st => Except.ok st
  | p :: rest, st =>
    match process_producer env conf cluster p st with
    | Except.error c => Except.error c
    | Except.ok (_, st) => process_cluster_producers env conf cluster rest st

/-- Loop body of process_cluster over the retrieved consumers; the int
result of process_consumer is ignored by the caller. -/
def process_cluster_consumers (env : RdEnv) (conf : KafkaConf)
    (cluster : SorceryKafkaCluster) :
    List SorceryKafkaConsumer → ModState → Except Crash ModState
  | [], st => Except.ok st
  | c :: rest, st =>
    match process_consumer env conf cluster c st with
    | Except.error e => Except.error e
    | Except.ok (_, st) => process_cluster_consumers env conf cluster rest st

/-- process_cluster: processes every producer referencing the cluster,
then every consumer referencing it. -/
def process_cluster (env : RdEnv) (conf : KafkaConf)
    (cluster : SorceryKafkaCluster) (st : ModState) : Except Crash ModState :=
  let producers := conf.producers.filter (fun p => p.cluster_id == cluster.id)
  match process_cluster_producers env conf cluster producers st with
  | Except.error c => Except.error c
  | Except.ok st =>
    let consumers := conf.consumers.filter (fun c => c.cluster_id == cluster.id)
    process_cluster_consumers env conf cluster consumers st

/-- Loop body of process_all_clusters. -/
def process_clusters_loop (env : RdEnv) (conf : KafkaConf) :
    List SorceryKafkaCluster → ModState → Except Crash ModState
  | [], st => Except.ok st
  | c :: rest, st =>
    match process_cluster env conf c st with
    | Except.error e => Except.error e
    | Except.ok st => process_clusters_loop env conf rest st

/-- process_all_clusters: one full reconciliation pass over every
cluster in the store. -/
def process_all_clusters (env : RdEnv) (conf : KafkaConf) (st : ModState) :
    Except Crash ModState :=
  process_clusters_loop env conf conf.clusters st

/-- Verdicts of the sorcery registry calls made during load_module. -/
structure SorceryEnv where
  /-- ast_sorcery_open succeeds. -/
  openOk : Bool
  /-- ast_sorcery_object_register for type cluster succeeds. -/
  registerClusterOk : Bool
  /-- ast_sorcery_object_register for type topic succeeds. -/
  registerTopicOk : Bool
  /-- ast_sorcery_object_register for type producer succeeds. -/
  registerProducerOk : Bool
  /-- ast_sorcery_object_register for type consumer succeeds. -/
  registerConsumerOk : Bool
  /-- ast_sorcery_observer_add for the producer observers succeeds. -/
  observerAddOk : Bool
deriving DecidableEq, Repr

/-- Result of a module lifecycle hook. -/
inductive LoadResult where
  | success
  | decline
deriving DecidableEq, Repr

/-- load_module: opens the registry, registers the four object types
and the producer observer in source order, declining at the first
failure; then loads the store and runs process_all_clusters.  Field
registrations and ast_sorcery_apply_default failures only log.  A crash
during processing kills the process. -/
def load_module (senv : SorceryEnv) (env : RdEnv) (conf : KafkaConf) :
    Except Crash (LoadResult × ModState) :=
  if !senv.openOk then Except.ok (LoadResult.decline, ModState.init)
  else if !senv.registerClusterOk then Except.ok (LoadResult.decline, ModState.init)
  else if !senv.registerTopicOk then Except.ok (LoadResult.decline, ModState.init)
  else if !senv.registerProducerOk then Except.ok (LoadResult.decline, ModState.init)
  else if !senv.observerAddOk then Except.ok (LoadResult.decline, ModState.init)
  else if !senv.registerConsumerOk then Except.ok (LoadResult.decline, ModState.init)
  else
    match process_all_clusters env conf ModState.init with
    | Except.error c => Except.error c
    | Except.ok st => Except.ok (LoadResult.success, st)

/-- unload_module: removes the observer, unregisters the CLI command and
unrefs the registry; it touches no rdkafka resource. -/
def unload_module (st : ModState) : Int × ModState := (0, st)

/-- reload_module: only calls ast_sorcery_reload, which re-reads the
configuration store and fires the loaded observer (a debug log); it
performs no reconciliation and touches no rdkafka resource. -/
def reload_module (st : ModState) : Int × ModState := (0, st)

/-- Two reconciliation passes in a row over the same configuration. -/
def process_all_twice (env : RdEnv) (conf : KafkaConf) (st : ModState) :
    Except Crash ModState :=
  match process_all_clusters env conf st with
  | Except.error c => Except.error c
  | Except.ok st => process_all_clusters env conf st

/-- Event that brought a client handle into existence. -/
def isClientCreate : Event → Bool
  | Event.clientNew _ _ ok => ok
  | _ => false

/-- Event that destroyed a client handle. -/
def isClientDestroy : Event → Bool
  | Event.clientDestroy _ _ => true
  | _ => false

/-- Event recording an rd_kafka_new call, successful or not. -/
def isClientAttempt : Event → Bool
  | Event.clientNew _ _ _ => true
  | _ => false

/-- Number of client handles alive after the given trace. -/
def clientsLive (t : List Event) : Int :=
  (t.countP isClientCreate : Int) - (t.countP isClientDestroy : Int)

/-- Number of successful client creations for one (cluster, role) pair. -/
def pairClientCreates (c : String) (r : Role) (t : List Event) : Nat :=
  t.countP fun e =>
    match e with
    | Event.clientNew c2 r2 ok => ok && decide (c2 = c) && decide (r2 = r)
    | _ => false

/-- Number of client destructions for one (cluster, role) pair. -/
def pairClientDestroys (c : String) (r : Role) (t : List Event) : Nat :=
  t.countP fun e =>
    match e with
    | Event.clientDestroy c2 r2 => decide (c2 = c) && decide (r2 = r)
    | _ => false

/-- Number of successful topic handle creations for one topic name. -/
def topicHandleCreates (name : String) (t : List Event) : Nat :=
  t.countP fun e =>
    match e with
    | Event.topicNew n ok => ok && decide (n = name)
    | _ => false

/-- Number of topic handle destructions for one topic name. -/
def topicHandleDestroys (name : String) (t : List Event) : Nat :=
  t.countP fun e =>
    match e with
    | Event.topicDestroy n => decide (n = name)
    | _ => false

/-- Trace of a processing run; a crashed run left the trace it had, but
nothing of the process survives, so the projection is empty. -/
def runTrace : Except Crash ModState → List Event
  | Except.ok st => st.trace
  | Except.error _ => []

/-- Topic records of a processing run. -/
def runTopicRecs : Except Crash ModState → List KafkaProducerTopic
  | Except.ok st => st.topicRecs
  | Except.error _ => []

/-- Whether a processing run crashed. -/
def runCrashed : Except Crash ModState → Bool
  | Except.ok _ => false
  | Except.error _ => true

/-- Trace left by load_module. -/
def loadTrace : Except Crash (LoadResult × ModState) → List Event
  | Except.ok (_, st) => st.trace
  | Except.error _ => []

/-- Topic records left by load_module. -/
def loadTopicRecs : Except Crash (LoadResult × ModState) → List KafkaProducerTopic
  | Except.ok (_, st) => st.topicRecs
  | Except.error _ => []

/-- Whether load_module declined. -/
def loadDeclined : Except Crash (LoadResult × ModState) → Bool
  | Except.ok (LoadResult.decline, _) => true
  | _ => false

/-- Whether load_module crashed. -/
def loadCrashed : Except Crash (LoadResult × ModState) → Bool
  | Except.ok _ => false
  | Except.error _ => true

/-- A trace segment that neither creates nor destroys a client. -/
def Silent (d : List Event) : Prop :=
  d.countP isClientCreate = 0 ∧ d.countP isClientDestroy = 0

/-- Every initial segment of the trace keeps between zero and one client
alive. -/
def SegBound (d : List Event) : Prop :=
  ∀ n, 0 ≤ clientsLive (d.take n) ∧ clientsLive (d.take n) ≤ 1

/-- A balanced trace segment: bounded as above and back to zero clients
at its end. -/
def SegOk (d : List Event) : Prop := SegBound d ∧ clientsLive d = 0

/-- Environment in which every library call succeeds. -/
def envOk : RdEnv :=
  { confNewOk := true
    confSetOk := fun _ _ => true
    rdNewOk := fun _ => true
    allocProducerOk := true
    topicConfNewOk := true
    allocTopicOk := true
    topicNewOk := fun _ => true }

/-- Environment in which the library rejects the security.protocol value
"bogus" and accepts everything else. -/
def envReject : RdEnv :=
  { envOk with confSetOk := fun k v => !(k == "security.protocol" && v == "bogus") }

/-- Environment in which every rd_kafka_topic_new call fails. -/
def envTopicFail : RdEnv :=
  { envOk with topicNewOk := fun _ => false }

/-- Environment in which rd_kafka_topic_new succeeds only for the topic
name "orders". -/
def envMix : RdEnv :=
  { envOk with topicNewOk := fun n => n == "orders" }

/-- Environment in which rd_kafka_conf_set rejects the broker value
"badhost" and accepts everything else. -/
def envIso : RdEnv :=
  { envOk with confSetOk := fun _ v => !(v == "badhost") }

/-- Sorcery verdicts in which every registry call succeeds. -/
def senvOk : SorceryEnv :=
  { openOk := true
    registerClusterOk := true
    registerTopicOk := true
    registerProducerOk := true
    registerConsumerOk := true
    observerAddOk := true }

/-- Sorcery verdicts in which only observer registration fails. -/
def senvObsFail : SorceryEnv := { senvOk with observerAddOk := false }

/-- Cluster C1 of the end-to-end scenario. -/
def clusterC1 : SorceryKafkaCluster :=
  { id := "C1", brokers := "broker1:9092", security_protocol := "plaintext",
    sasl_mechanism := "PLAIN", sasl_username := "", sasl_password := "",
    client_id := "asterisk", port := 1883, ssl := false }

/-- Producer P1 of the end-to-end scenario. -/
def producerP1 : SorceryKafkaProducer := { id := "P1", cluster_id := "C1" }

/-- Topic T1 of the end-to-end scenario. -/
def topicT1 : SorceryKafkaTopic :=
  { id := "T1", topic := "orders", producer_id := "P1", consumer_id := "" }

/-- Store contents of the end-to-end scenario: cluster C1, producer P1
on it, topic T1 bound to P1. -/
def confC2 : KafkaConf :=
  { clusters := [clusterC1], producers := [producerP1], consumers := [],
    topics := [topicT1] }

/-- A cluster with two producers: pair-sharing scenario. -/
def clusterC : SorceryKafkaCluster :=
  { id := "C", brokers := "b:9092", security_protocol := "plaintext",
    sasl_mechanism := "PLAIN", sasl_username := "", sasl_password := "",
    client_id := "asterisk", port := 1883, ssl := false }

/-- First producer on cluster C. -/
def producerPa : SorceryKafkaProducer := { id := "Pa", cluster_id := "C" }

/-- Second producer on cluster C. -/
def producerPb : SorceryKafkaProducer := { id := "Pb", cluster_id := "C" }

/-- Topic bound to producer Pa. -/
def topicTa : SorceryKafkaTopic :=
  { id := "Ta", topic := "ta", producer_id := "Pa", consumer_id := "" }

/-- Topic bound to producer Pb. -/
def topicTb : SorceryKafkaTopic :=
  { id := "Tb", topic := "tb", producer_id := "Pb", consumer_id := "" }

/-- Store contents with two producers on the same cluster, one topic
each: both producers address the same (cluster, role) pair. -/
def confTwo : KafkaConf :=
  { clusters := [clusterC], producers := [producerPa, producerPb], consumers := [],
    topics := [topicTa, topicTb] }

/-- Cluster whose broker value the envIso library rejects. -/
def clusterA : SorceryKafkaCluster :=
  { id := "A", brokers := "badhost", security_protocol := "plaintext",
    sasl_mechanism := "PLAIN", sasl_username := "", sasl_password := "",
    client_id := "asterisk", port := 1883, ssl := false }

/-- Cluster whose configuration the envIso library accepts. -/
def clusterB : SorceryKafkaCluster :=
  { id := "B", brokers := "b:9092", security_protocol := "plaintext",
    sasl_mechanism := "PLAIN", sasl_username := "", sasl_password := "",
    client_id := "asterisk", port := 1883, ssl := false }

/-- Producer on the failing cluster A. -/
def producerPA : SorceryKafkaProducer := { id := "PA", cluster_id := "A" }

/-- Producer on the healthy cluster B. -/
def producerPB : SorceryKafkaProducer := { id := "PB", cluster_id := "B" }

/-- Topic bound to the failing producer PA. -/
def topicTA : SorceryKafkaTopic :=
  { id := "TA", topic := "taa", producer_id := "PA", consumer_id := "" }

/-- Topic bound to the healthy producer PB. -/
def topicTB : SorceryKafkaTopic :=
  { id := "TB", topic := "tb", producer_id := "PB", consumer_id := "" }

/-- Store contents for the fault isolation scenario. -/
def confIso : KafkaConf :=
  { clusters := [clusterA, clusterB], producers := [producerPA, producerPB],
    consumers := [], topics := [topicTA, topicTB] }

/-- A cluster record with an empty broker list and a security protocol
token outside the documented enumeration. -/
def clusterBad : SorceryKafkaCluster :=
  { id := "CB", brokers := "", security_protocol := "bogus",
    sasl_mechanism := "PLAIN", sasl_username := "", sasl_password := "",
    client_id := "asterisk", port := 1883, ssl := false }

/-- Producer on the malformed cluster. -/
def producerX : SorceryKafkaProducer := { id := "PX", cluster_id := "CB" }

/-- A live producer client record such as process_producer holds while
binding topics. -/
def producerRecC1 : KafkaProducer := { rc := 1, hasRd := true, clusterId := "C1" }

/-- A topic whose name the envMix library rejects. -/
def topicBad : SorceryKafkaTopic :=
  { id := "TBad", topic := "bad", producer_id := "P1", consumer_id := "" }

/-- A cluster record for the dependence comparison. -/
def clusterD1 : SorceryKafkaCluster :=
  { id := "D", brokers := "d:9092", security_protocol := "sasl_ssl",
    sasl_mechanism := "SCRAM-SHA-256", sasl_username := "u", sasl_password := "pw",
    client_id := "asterisk", port := 1883, ssl := false }

/-- The same cluster except for port, ssl and client_id, the fields that
build_rdkafka_cluster_config never reads. -/
def clusterD2 : SorceryKafkaCluster :=
  { id := "D", brokers := "d:9092", security_protocol := "sasl_ssl",
    sasl_mechanism := "SCRAM-SHA-256", sasl_username := "u", sasl_password := "pw",
    client_id := "someone-else", port := 9999, ssl := true }

/-- Trace after loading the end-to-end scenario and then reloading. -/
def load_then_reload_trace : List Event :=
  match load_module senvOk envOk confC2 with
  | Except.ok (_, st) => (reload_module st).2.trace
  | Except.error _ => []

end ResKafka

namespace ResKafka

theorem silent_nil : Silent [] := ⟨rfl, rfl⟩

theorem silent_take {d : List Event} (h : Silent d) (n : Nat) : Silent (d.take n) := by
  constructor
  · exact Nat.le_zero.mp (h.1 ▸ List.Sublist.countP_le _ (List.take_sublist n d))
  · exact Nat.le_zero.mp (h.2 ▸ List.Sublist.countP_le _ (List.take_sublist n d))

theorem silent_append {a b : List Event} (ha : Silent a) (hb : Silent b) :
    Silent (a ++ b) := by
  constructor <;> simp [List.countP_append, ha.1, ha.2, hb.1, hb.2]

theorem clientsLive_nil : clientsLive [] = 0 := rfl

theorem clientsLive_append (a b : List Event) :
    clientsLive (a ++ b) = clientsLive a + clientsLive b := by
  simp [clientsLive, List.countP_append]
  ring

theorem silent_clientsLive {d : List Event} (h : Silent d) : clientsLive d = 0 := by
  simp [clientsLive, h.1, h.2]

theorem segOk_silent {d : List Event} (h : Silent d) : SegOk d := by
  refine ⟨fun n => ?_, silent_clientsLive h⟩
  rw [silent_clientsLive (silent_take h n)]
  norm_num

theorem segBound_append {a b : List Event} (ha : SegBound a)
    (hb : ∀ n, 0 ≤ clientsLive a + clientsLive (b.take n) ∧
               clientsLive a + clientsLive (b.take n) ≤ 1) :
    SegBound (a ++ b) := by
  intro n
  rw [List.take_append_eq_append_take, clientsLive_append]
  rcases Nat.le_total n a.length with h | h
  · rw [Nat.sub_eq_zero_of_le h, List.take_zero, clientsLive_nil, add_zero]
    exact ha n
  · rw [List.take_of_length_le h]
    exact hb (n - a.length)

theorem segOk_append {a b : List Event} (ha : SegOk a) (hb : SegOk b) :
    SegOk (a ++ b) := by
  refine ⟨segBound_append ha.1 (fun n => ?_), ?_⟩
  · rw [ha.2, zero_add]
    exact hb.1 n
  · rw [clientsLive_append, ha.2, hb.2]
    norm_num

theorem clientsLive_singleton_create (c : String) (r : Role) :
    clientsLive [Event.clientNew c r true] = 1 := by
  simp [clientsLive, List.countP_cons, isClientCreate, isClientDestroy]

theorem clientsLive_singleton_destroy (c : String) (r : Role) :
    clientsLive [Event.clientDestroy c r] = -1 := by
  simp [clientsLive, List.countP_cons, isClientCreate, isClientDestroy]

theorem segBound_snoc_create {a : List Event} (ha : SegOk a) (c : String) (r : Role) :
    SegBound (a ++ [Event.clientNew c r true]) ∧
      clientsLive (a ++ [Event.clientNew c r true]) = 1 := by
  constructor
  · refine segBound_append ha.1 (fun n => ?_)
    rw [ha.2, zero_add]
    rcases n with _ | n
    · rw [List.take_zero, clientsLive_nil]
      norm_num
    · rw [List.take_of_length_le (by simp), clientsLive_singleton_create]
      norm_num
  · rw [clientsLive_append, ha.2, clientsLive_singleton_create, zero_add]

theorem seg1_append_silent {a s : List Event} (hb : SegBound a) (h1 : clientsLive a = 1)
    (hs : Silent s) : SegBound (a ++ s) ∧ clientsLive (a ++ s) = 1 := by
  constructor
  · refine segBound_append hb (fun n => ?_)
    rw [h1, silent_clientsLive (silent_take hs n)]
    norm_num
  · rw [clientsLive_append, h1, silent_clientsLive hs]
    norm_num

theorem segOk_snoc_destroy {a : List Event} (hb : SegBound a) (h1 : clientsLive a = 1)
    (c : String) (r : Role) : SegOk (a ++ [Event.clientDestroy c r]) := by
  refine ⟨segBound_append hb (fun n => ?_), ?_⟩
  · rw [h1]
    rcases n with _ | n
    · rw [List.take_zero, clientsLive_nil]
      norm_num
    · rw [List.take_of_length_le (by simp), clientsLive_singleton_destroy]
      norm_num
  · rw [clientsLive_append, h1, clientsLive_singleton_destroy]
    norm_num

end ResKafka

namespace ResKafka

theorem build_trace_silent (env : RdEnv) (c : SorceryKafkaCluster) (st : ModState) :
    ∃ d, (build_rdkafka_cluster_config env c st).2.trace = st.trace ++ d ∧ Silent d := by
  unfold build_rdkafka_cluster_config
  cases hc : env.confNewOk <;>
  cases h1 : env.confSetOk "metadata.broker.list" c.brokers <;>
  cases h2 : env.confSetOk "security.protocol" c.security_protocol <;>
  cases h3 : env.confSetOk "sasl.mechanism" c.sasl_mechanism <;>
  cases h4 : env.confSetOk "sasl.username" c.sasl_username <;>
  cases h5 : env.confSetOk "sasl.password" c.sasl_password <;>
  simp only [hc, h1, h2, h3, h4, h5, emit, Bool.false_eq_true, if_false, if_true] <;>
  first
    | exact ⟨[], (List.append_nil _).symm, silent_nil⟩
    | exact ⟨_, rfl, rfl, rfl⟩
    | (simp only [List.append_assoc, List.singleton_append, List.cons_append,
        List.nil_append]
       exact ⟨_, rfl, rfl, rfl⟩)

end ResKafka

namespace ResKafka

theorem new_kafka_producer_build_none {env : RdEnv} {c : SorceryKafkaCluster}
    {p : SorceryKafkaProducer} {st st2 : ModState}
    (hb : build_rdkafka_cluster_config env c st = (none, st2)) :
    new_kafka_producer env c p st = (none, st2) := by
  unfold new_kafka_producer
  rw [hb]

theorem new_kafka_producer_build_some {env : RdEnv} {c : SorceryKafkaCluster}
    {p : SorceryKafkaProducer} {st st2 : ModState} {config : RdConf}
    (hb : build_rdkafka_cluster_config env c st = (some config, st2)) :
    new_kafka_producer env c p st =
      (if env.allocProducerOk then
        (if env.rdNewOk config then
          (some { rc := 1, hasRd := true, clusterId := c.id },
           emit (Event.clientNew c.id Role.producer (env.rdNewOk config)) st2)
         else
          (none, emit (Event.clientNew c.id Role.producer (env.rdNewOk config)) st2))
       else (none, st2)) := by
  unfold new_kafka_producer
  rw [hb]

end ResKafka

namespace ResKafka

theorem new_kafka_producer_none_trace {env : RdEnv} {c : SorceryKafkaCluster}
    {p : SorceryKafkaProducer} {st st1 : ModState}
    (h : new_kafka_producer env c p st = (none, st1)) :
    ∃ d, st1.trace = st.trace ++ d ∧ Silent d := by
  obtain ⟨d, hd, hs⟩ := build_trace_silent env c st
  rcases hb : build_rdkafka_cluster_config env c st with ⟨r, st2⟩
  rw [hb] at hd
  change st2.trace = st.trace ++ d at hd
  cases r with
  | none =>
    rw [new_kafka_producer_build_none hb] at h
    simp only [Prod.mk.injEq, true_and] at h
    subst h
    exact ⟨d, hd, hs⟩
  | some config =>
    rw [new_kafka_producer_build_some hb] at h
    cases ha : env.allocProducerOk with
    | false =>
      simp only [ha, Bool.false_eq_true, if_false, Prod.mk.injEq, true_and] at h
      subst h
      exact ⟨d, hd, hs⟩
    | true =>
      cases hok : env.rdNewOk config with
      | true => simp [ha, hok] at h
      | false =>
        simp only [ha, hok, Bool.false_eq_true, if_false, if_true,
          Prod.mk.injEq, true_and] at h
        subst h
        refine ⟨d ++ [Event.clientNew c.id Role.producer false], ?_,
          silent_append hs ⟨rfl, rfl⟩⟩
        simp [emit, hd, List.append_assoc]

theorem new_kafka_producer_some_trace {env : RdEnv} {c : SorceryKafkaCluster}
    {p : SorceryKafkaProducer} {st st1 : ModState} {kp : KafkaProducer}
    (h : new_kafka_producer env c p st = (some kp, st1)) :
    kp = { rc := 1, hasRd := true, clusterId := c.id } ∧
    ∃ s, st1.trace = st.trace ++ (s ++ [Event.clientNew c.id Role.producer true]) ∧
      Silent s := by
  obtain ⟨d, hd, hs⟩ := build_trace_silent env c st
  rcases hb : build_rdkafka_cluster_config env c st with ⟨r, st2⟩
  rw [hb] at hd
  change st2.trace = st.trace ++ d at hd
  cases r with
  | none =>
    rw [new_kafka_producer_build_none hb] at h
    simp at h
  | some config =>
    rw [new_kafka_producer_build_some hb] at h
    cases ha : env.allocProducerOk with
    | false => simp [ha] at h
    | true =>
      cases hok : env.rdNewOk config with
      | false => simp [ha, hok] at h
      | true =>
        simp only [ha, hok, if_true, Prod.mk.injEq, Option.some.injEq] at h
        refine ⟨h.1.symm, d, ?_, hs⟩
        rw [← h.2]
        simp [emit, hd, List.append_assoc]

end ResKafka

namespace ResKafka

theorem new_kafka_producer_topic_eq (env : RdEnv) (kp : KafkaProducer)
    (t : SorceryKafkaTopic) (st : ModState) :
    new_kafka_producer_topic env kp t st =
      (if env.allocTopicOk then
        (if env.topicConfNewOk then
          (if env.topicNewOk t.topic then
            (some { rc := 2, hasRd := true, topicName := t.topic },
             { st with trace := st.trace ++ [Event.topicNew t.topic true] })
           else
            (none, { topicRecs :=
                       st.topicRecs ++ [{ rc := 0, hasRd := false, topicName := t.topic }],
                     trace := st.trace ++ [Event.topicNew t.topic false] }))
         else
          (none, { topicRecs :=
                     st.topicRecs ++ [{ rc := 0, hasRd := false, topicName := t.topic }],
                   trace := st.trace }))
       else (none, st)) := by
  unfold new_kafka_producer_topic release_kafka_producer_topic kafka_producer_topic_destructor emit
  cases ha : env.allocTopicOk <;> cases hc : env.topicConfNewOk <;>
    cases ht : env.topicNewOk t.topic <;> simp [ha, hc, ht]

theorem process_producer_topic_eq_some {env : RdEnv} {kp : KafkaProducer}
    {t : SorceryKafkaTopic} (st : ModState)
    (h1 : env.allocTopicOk = true) (h2 : env.topicConfNewOk = true)
    (h3 : env.topicNewOk t.topic = true) :
    process_producer_topic env kp t st =
      Except.ok { topicRecs := st.topicRecs ++ [{ rc := 1, hasRd := true, topicName := t.topic }],
                  trace := st.trace ++ [Event.topicNew t.topic true,
                                        Event.produceMsg t.topic (-1) "test",
                                        Event.flushCall 10000] } := by
  unfold process_producer_topic
  rw [new_kafka_producer_topic_eq, h1, h2, h3]
  simp [emit, release_kafka_producer_topic, kafka_producer_topic_destructor]

theorem process_producer_topic_err {env : RdEnv} {kp : KafkaProducer}
    {t : SorceryKafkaTopic} {st : ModState}
    (hn : (new_kafka_producer_topic env kp t st).1 = none) :
    process_producer_topic env kp t st = Except.error Crash.nullDeref := by
  unfold process_producer_topic
  rcases hb : new_kafka_producer_topic env kp t st with ⟨r, st2⟩
  rw [hb] at hn
  change r = none at hn
  subst hn
  rfl

theorem process_producer_topic_ok_trace {env : RdEnv} {kp : KafkaProducer}
    {t : SorceryKafkaTopic} {st st1 : ModState}
    (h : process_producer_topic env kp t st = Except.ok st1) :
    ∃ d, st1.trace = st.trace ++ d ∧ Silent d := by
  cases ha : env.allocTopicOk
  case false =>
    rw [process_producer_topic_err (by rw [new_kafka_producer_topic_eq]; simp [ha])] at h
    simp at h
  case true =>
    cases hc : env.topicConfNewOk
    case false =>
      rw [process_producer_topic_err
        (by rw [new_kafka_producer_topic_eq]; simp [ha, hc])] at h
      simp at h
    case true =>
      cases ht : env.topicNewOk t.topic
      case false =>
        rw [process_producer_topic_err
          (by rw [new_kafka_producer_topic_eq]; simp [ha, hc, ht])] at h
        simp at h
      case true =>
        rw [process_producer_topic_eq_some st ha hc ht] at h
        simp only [Except.ok.injEq] at h
        subst h
        exact ⟨_, rfl, rfl, rfl⟩

end ResKafka

namespace ResKafka

theorem process_producer_topics_trace {env : RdEnv} {kp : KafkaProducer} :
    ∀ (ts : List SorceryKafkaTopic) {st st1 : ModState},
      process_producer_topics env kp ts st = Except.ok st1 →
      ∃ d, st1.trace = st.trace ++ d ∧ Silent d := by
  intro ts
  induction ts with
  | nil =>
    intro st st1 h
    simp only [process_producer_topics, Except.ok.injEq] at h
    subst h
    exact ⟨[], (List.append_nil _).symm, silent_nil⟩
  | cons t rest ih =>
    intro st st1 h
    unfold process_producer_topics at h
    cases hpt : process_producer_topic env kp t st with
    | error c => rw [hpt] at h; simp at h
    | ok st2 =>
      rw [hpt] at h
      change process_producer_topics env kp rest st2 = Except.ok st1 at h
      obtain ⟨d1, hd1, hs1⟩ := process_producer_topic_ok_trace hpt
      obtain ⟨d2, hd2, hs2⟩ := ih h
      exact ⟨d1 ++ d2, by rw [hd2, hd1, List.append_assoc], silent_append hs1 hs2⟩

theorem release_producer_rc1 (cid : String) (st : ModState) :
    (release_kafka_producer { rc := 1, hasRd := true, clusterId := cid } st).2 =
      emit (Event.clientDestroy cid Role.producer) st := by
  simp [release_kafka_producer, kafka_producer_destructor]

theorem process_producer_seg {env : RdEnv} {conf : KafkaConf}
    {c : SorceryKafkaCluster} {p : SorceryKafkaProducer} {st : ModState}
    {r : Int} {st1 : ModState}
    (h : process_producer env conf c p st = Except.ok (r, st1)) :
    ∃ d, st1.trace = st.trace ++ d ∧ SegOk d := by
  unfold process_producer at h
  by_cases he : (conf.topics.filter fun t => t.producer_id == p.id).isEmpty
  · rw [if_pos he] at h
    simp only [Except.ok.injEq, Prod.mk.injEq] at h
    rw [← h.2]
    exact ⟨[], (List.append_nil _).symm, segOk_silent silent_nil⟩
  · rw [if_neg he] at h
    rcases hb : new_kafka_producer env c p st with ⟨opt, st2⟩
    cases opt with
    | none =>
      rw [hb] at h
      change Except.ok ((-1 : Int), st2) = Except.ok (r, st1) at h
      simp only [Except.ok.injEq, Prod.mk.injEq] at h
      rw [← h.2]
      obtain ⟨d, hd, hs⟩ := new_kafka_producer_none_trace hb
      exact ⟨d, hd, segOk_silent hs⟩
    | some kp =>
      rw [hb] at h
      obtain ⟨hkp, s, hs2, hsil⟩ := new_kafka_producer_some_trace hb
      change (match process_producer_topics env kp
          (List.filter (fun t => t.producer_id == p.id) conf.topics) st2 with
        | Except.error c => (Except.error c : Except Crash (Int × ModState))
        | Except.ok st => Except.ok (0, (release_kafka_producer kp st).2)) =
          Except.ok (r, st1) at h
      cases hl : process_producer_topics env kp
          (List.filter (fun t => t.producer_id == p.id) conf.topics) st2 with
      | error e =>
        rw [hl] at h
        simp at h
      | ok st3 =>
        rw [hl] at h
        change Except.ok ((0 : Int), (release_kafka_producer kp st3).2) =
          Except.ok (r, st1) at h
        simp only [Except.ok.injEq, Prod.mk.injEq] at h
        obtain ⟨d2, hd2, hsil2⟩ := process_producer_topics_trace _ hl
        rw [← h.2, hkp, release_producer_rc1]
        have hc1 : SegOk s := segOk_silent hsil
        have hc2 := segBound_snoc_create hc1 c.id Role.producer
        have hc3 := seg1_append_silent hc2.1 hc2.2 hsil2
        have hc4 := segOk_snoc_destroy hc3.1 hc3.2 c.id Role.producer
        refine ⟨((s ++ [Event.clientNew c.id Role.producer true]) ++ d2) ++
          [Event.clientDestroy c.id Role.producer], ?_, hc4⟩
        simp only [emit, hd2, hs2, List.append_assoc]

end ResKafka

namespace ResKafka

theorem foldl_consumer_topics (c : SorceryKafkaCluster) (q : SorceryKafkaConsumer)
    (l : List SorceryKafkaTopic) (st : ModState) :
    List.foldl (fun acc t => process_consumer_topic c q t acc) st l = st := by
  induction l generalizing st with
  | nil => rfl
  | cons b bs ih => exact ih st

theorem process_consumer_trace {env : RdEnv} {conf : KafkaConf}
    {c : SorceryKafkaCluster} {q : SorceryKafkaConsumer} {st : ModState}
    {r : Int} {st1 : ModState}
    (h : process_consumer env conf c q st = Except.ok (r, st1)) :
    ∃ d, st1.trace = st.trace ++ d ∧ Silent d := by
  obtain ⟨d1, hd1, hs1⟩ := build_trace_silent env c st
  unfold process_consumer at h
  rcases hb1 : build_rdkafka_cluster_config env c st with ⟨r1, st2⟩
  rw [hb1] at hd1 h
  change st2.trace = st.trace ++ d1 at hd1
  cases r1 with
  | none =>
    change Except.ok ((-1 : Int), st2) = Except.ok (r, st1) at h
    simp only [Except.ok.injEq, Prod.mk.injEq] at h
    rw [← h.2]
    exact ⟨d1, hd1, hs1⟩
  | some config =>
    change (if (List.filter (fun t => t.consumer_id == q.id) conf.topics).isEmpty = true then
        Except.ok ((0 : Int), st2)
      else
        match build_rdkafka_cluster_config env c st2 with
        | (none, st) => Except.ok ((-1 : Int), st)
        | (some _, st) => Except.ok ((0 : Int),
            List.foldl (fun acc t => process_consumer_topic c q t acc) st
              (List.filter (fun t => t.consumer_id == q.id) conf.topics))) =
      Except.ok (r, st1) at h
    by_cases he : (List.filter (fun t => t.consumer_id == q.id) conf.topics).isEmpty = true
    · rw [if_pos he] at h
      simp only [Except.ok.injEq, Prod.mk.injEq] at h
      rw [← h.2]
      exact ⟨d1, hd1, hs1⟩
    · rw [if_neg he] at h
      obtain ⟨d2, hd2, hs2⟩ := build_trace_silent env c st2
      rcases hb2 : build_rdkafka_cluster_config env c st2 with ⟨r2, st3⟩
      rw [hb2] at hd2 h
      change st3.trace = st2.trace ++ d2 at hd2
      cases r2 with
      | none =>
        change Except.ok ((-1 : Int), st3) = Except.ok (r, st1) at h
        simp only [Except.ok.injEq, Prod.mk.injEq] at h
        rw [← h.2]
        exact ⟨d1 ++ d2, by rw [hd2, hd1, List.append_assoc], silent_append hs1 hs2⟩
      | some config2 =>
        change Except.ok ((0 : Int),
          List.foldl (fun acc t => process_consumer_topic c q t acc) st3
            (List.filter (fun t => t.consumer_id == q.id) conf.topics)) =
          Except.ok (r, st1) at h
        rw [foldl_consumer_topics] at h
        simp only [Except.ok.injEq, Prod.mk.injEq] at h
        rw [← h.2]
        exact ⟨d1 ++ d2, by rw [hd2, hd1, List.append_assoc], silent_append hs1 hs2⟩

theorem process_cluster_producers_seg {env : RdEnv} {conf : KafkaConf}
    {c : SorceryKafkaCluster} :
    ∀ (ps : List SorceryKafkaProducer) {st st1 : ModState},
      process_cluster_producers env conf c ps st = Except.ok st1 →
      ∃ d, st1.trace = st.trace ++ d ∧ SegOk d := by
  intro ps
  induction ps with
  | nil =>
    intro st st1 h
    simp only [process_cluster_producers, Except.ok.injEq] at h
    subst h
    exact ⟨[], (List.append_nil _).symm, segOk_silent silent_nil⟩
  | cons p rest ih =>
    intro st st1 h
    unfold process_cluster_producers at h
    cases hp : process_producer env conf c p st with
    | error e => rw [hp] at h; simp at h
    | ok pr =>
      rcases pr with ⟨rv, st2⟩
      rw [hp] at h
      change process_cluster_producers env conf c rest st2 = Except.ok st1 at h
      obtain ⟨d1, hd1, hs1⟩ := process_producer_seg hp
      obtain ⟨d2, hd2, hs2⟩ := ih h
      exact ⟨d1 ++ d2, by rw [hd2, hd1, List.append_assoc], segOk_append hs1 hs2⟩

theorem process_cluster_consumers_seg {env : RdEnv} {conf : KafkaConf}
    {c : SorceryKafkaCluster} :
    ∀ (qs : List SorceryKafkaConsumer) {st st1 : ModState},
      process_cluster_consumers env conf c qs st = Except.ok st1 →
      ∃ d, st1.trace = st.trace ++ d ∧ SegOk d := by
  intro qs
  induction qs with
  | nil =>
    intro st st1 h
    simp only [process_cluster_consumers, Except.ok.injEq] at h
    subst h
    exact ⟨[], (List.append_nil _).symm, segOk_silent silent_nil⟩
  | cons q rest ih =>
    intro st st1 h
    unfold process_cluster_consumers at h
    cases hq : process_consumer env conf c q st with
    | error e => rw [hq] at h; simp at h
    | ok pr =>
      rcases pr with ⟨rv, st2⟩
      rw [hq] at h
      change process_cluster_consumers env conf c rest st2 = Except.ok st1 at h
      obtain ⟨d1, hd1, hs1⟩ := process_consumer_trace hq
      obtain ⟨d2, hd2, hs2⟩ := ih h
      exact ⟨d1 ++ d2, by rw [hd2, hd1, List.append_assoc],
        segOk_append (segOk_silent hs1) hs2⟩

theorem process_cluster_seg {env : RdEnv} {conf : KafkaConf}
    {c : SorceryKafkaCluster} {st st1 : ModState}
    (h : process_cluster env conf c st = Except.ok st1) :
    ∃ d, st1.trace = st.trace ++ d ∧ SegOk d := by
  unfold process_cluster at h
  change (match process_cluster_producers env conf c
      (List.filter (fun p => p.cluster_id == c.id) conf.producers) st with
    | Except.error e => (Except.error e : Except Crash ModState)
    | Except.ok st => process_cluster_consumers env conf c
        (List.filter (fun x => x.cluster_id == c.id) conf.consumers) st) =
      Except.ok st1 at h
  cases hp : process_cluster_producers env conf c
      (List.filter (fun p => p.cluster_id == c.id) conf.producers) st with
  | error e => rw [hp] at h; simp at h
  | ok st2 =>
    rw [hp] at h
    change process_cluster_consumers env conf c
      (List.filter (fun x => x.cluster_id == c.id) conf.consumers) st2 =
        Except.ok st1 at h
    obtain ⟨d1, hd1, hs1⟩ := process_cluster_producers_seg _ hp
    obtain ⟨d2, hd2, hs2⟩ := process_cluster_consumers_seg _ h
    exact ⟨d1 ++ d2, by rw [hd2, hd1, List.append_assoc], segOk_append hs1 hs2⟩

theorem process_clusters_loop_seg {env : RdEnv} {conf : KafkaConf} :
    ∀ (cs : List SorceryKafkaCluster) {st st1 : ModState},
      process_clusters_loop env conf cs st = Except.ok st1 →
      ∃ d, st1.trace = st.trace ++ d ∧ SegOk d := by
  intro cs
  induction cs with
  | nil =>
    intro st st1 h
    simp only [process_clusters_loop, Except.ok.injEq] at h
    subst h
    exact ⟨[], (List.append_nil _).symm, segOk_silent silent_nil⟩
  | cons c rest ih =>
    intro st st1 h
    unfold process_clusters_loop at h
    cases hc : process_cluster env conf c st with
    | error e => rw [hc] at h; simp at h
    | ok st2 =>
      rw [hc] at h
      change process_clusters_loop env conf rest st2 = Except.ok st1 at h
      obtain ⟨d1, hd1, hs1⟩ := process_cluster_seg hc
      obtain ⟨d2, hd2, hs2⟩ := ih h
      exact ⟨d1 ++ d2, by rw [hd2, hd1, List.append_assoc], segOk_append hs1 hs2⟩

theorem process_all_clusters_seg {env : RdEnv} {conf : KafkaConf} {st st1 : ModState}
    (h : process_all_clusters env conf st = Except.ok st1) :
    ∃ d, st1.trace = st.trace ++ d ∧ SegOk d :=
  process_clusters_loop_seg _ h

end ResKafka

namespace ResKafka

/-- C4: when rd_kafka_topic_new fails while binding topic T1, the code
does not release any connection reference and does not propagate an
error; it dereferences the NULL topic record in rd_kafka_produce and
crashes the process. -/
theorem C4_theorem :
    process_producer_topic envTopicFail producerRecC1 topicT1 ModState.init =
      Except.error Crash.nullDeref := rfl

/-- C9: every producer-side topic bind that yields a topic handle also
produces the hard-coded 4-byte payload "test" with the unassigned
partition (RD_KAFKA_PARTITION_UA, -1) and then flushes the producer
client with a 10000 ms timeout. -/
theorem C9_theorem (env : RdEnv) (kp : KafkaProducer) (t : SorceryKafkaTopic)
    (st : ModState) (h1 : env.allocTopicOk = true) (h2 : env.topicConfNewOk = true)
    (h3 : env.topicNewOk t.topic = true) :
    process_producer_topic env kp t st =
      Except.ok { topicRecs := st.topicRecs ++ [{ rc := 1, hasRd := true, topicName := t.topic }],
                  trace := st.trace ++ [Event.topicNew t.topic true,
                                        Event.produceMsg t.topic (-1) "test",
                                        Event.flushCall 10000] } ∧
    "test".length = 4 :=
  ⟨process_producer_topic_eq_some st h1 h2 h3, rfl⟩

/-- C9 witness: the successful bind of topic T1 on a live producer
client, evaluated concretely. -/
theorem C9_witness :
    process_producer_topic envOk producerRecC1 topicT1 ModState.init =
      Except.ok { topicRecs := [{ rc := 1, hasRd := true, topicName := "orders" }],
                  trace := [Event.topicNew "orders" true,
                            Event.produceMsg "orders" (-1) "test",
                            Event.flushCall 10000] } ∧
    "test".length = 4 :=
  C9_theorem envOk producerRecC1 topicT1 ModState.init rfl rfl rfl

/-- C10: the connection configuration built from a cluster record is a
function of brokers, security_protocol, sasl_mechanism, sasl_username
and sasl_password only; two records agreeing on those five fields yield
identical configurations whatever their port, ssl or client_id. -/
theorem C10_theorem (env : RdEnv) (c1 c2 : SorceryKafkaCluster) (st : ModState)
    (hb : c1.brokers = c2.brokers)
    (hp : c1.security_protocol = c2.security_protocol)
    (hm : c1.sasl_mechanism = c2.sasl_mechanism)
    (hu : c1.sasl_username = c2.sasl_username)
    (hw : c1.sasl_password = c2.sasl_password) :
    (build_rdkafka_cluster_config env c1 st).1 =
      (build_rdkafka_cluster_config env c2 st).1 := by
  unfold build_rdkafka_cluster_config
  rw [hb, hp, hm, hu, hw]

/-- C10 witness: two concrete cluster records differing only in port,
ssl and client_id build the same configuration. -/
theorem C10_witness :
    (build_rdkafka_cluster_config envOk clusterD1 ModState.init).1 =
      (build_rdkafka_cluster_config envOk clusterD2 ModState.init).1 :=
  C10_theorem envOk clusterD1 clusterD2 ModState.init rfl rfl rfl rfl rfl

/-- C5: on the failure path of topic-handle construction the extra
retain and the original allocation are each released exactly once (the
record dies with refcount zero); on the success path the extra retain is
never released and the record survives the whole bind with refcount one,
a leak. -/
theorem C5_theorem (env : RdEnv) (kp : KafkaProducer) (t : SorceryKafkaTopic)
    (st : ModState) (h1 : env.allocTopicOk = true) (h2 : env.topicConfNewOk = true) :
    (env.topicNewOk t.topic = false →
      new_kafka_producer_topic env kp t st =
        (none, { topicRecs := st.topicRecs ++ [{ rc := 0, hasRd := false, topicName := t.topic }],
                 trace := st.trace ++ [Event.topicNew t.topic false] })) ∧
    (env.topicNewOk t.topic = true →
      process_producer_topic env kp t st =
        Except.ok { topicRecs := st.topicRecs ++ [{ rc := 1, hasRd := true, topicName := t.topic }],
                    trace := st.trace ++ [Event.topicNew t.topic true,
                                          Event.produceMsg t.topic (-1) "test",
                                          Event.flushCall 10000] }) := by
  constructor
  · intro h3
    rw [new_kafka_producer_topic_eq, h1, h2, h3]
    simp
  · intro h3
    exact process_producer_topic_eq_some st h1 h2 h3

/-- C5 witness: a failing bind of topic "bad" releases both references
and records refcount zero; a succeeding bind of "orders" leaks the
record with refcount one. -/
theorem C5_witness :
    new_kafka_producer_topic envMix producerRecC1 topicBad ModState.init =
      (none, { topicRecs := [{ rc := 0, hasRd := false, topicName := "bad" }],
               trace := [Event.topicNew "bad" false] }) ∧
    process_producer_topic envMix producerRecC1 topicT1 ModState.init =
      Except.ok { topicRecs := [{ rc := 1, hasRd := true, topicName := "orders" }],
                  trace := [Event.topicNew "orders" true,
                            Event.produceMsg "orders" (-1) "test",
                            Event.flushCall 10000] } :=
  ⟨(C5_theorem envMix producerRecC1 topicBad ModState.init rfl rfl).1 (by decide),
   (C5_theorem envMix producerRecC1 topicT1 ModState.init rfl rfl).2 (by decide)⟩

/-- C5 counterexample: the claim promises a matched release of the extra
retain on the success path; in fact after a successful bind completes
the topic record is still alive with refcount one and its underlying
handle is never destroyed. -/
theorem C5_counterexample :
    runTopicRecs (process_producer_topic envOk producerRecC1 topicT1 ModState.init) =
      [{ rc := 1, hasRd := true, topicName := "orders" }] ∧
    topicHandleDestroys "orders"
      (runTrace (process_producer_topic envOk producerRecC1 topicT1 ModState.init)) = 0 := by
  exact ⟨rfl, by decide⟩

/-- C3 counterexample: a cluster record with an empty broker list and
the out-of-enumeration protocol token "bogus" is not rejected by the
module: the tokens are forwarded to the library verbatim, the
configuration builds (under a library that accepts the values, as
librdkafka does for its plain string properties), and a client
connection is attempted and created. -/
theorem C3_counterexample :
    (build_rdkafka_cluster_config envOk clusterBad ModState.init).1 =
      some [("metadata.broker.list", ""), ("security.protocol", "bogus"),
            ("sasl.mechanism", "PLAIN"), ("sasl.username", ""), ("sasl.password", "")] ∧
    clusterBad.brokers = "" ∧
    (new_kafka_producer envOk clusterBad producerX ModState.init).1.isSome = true :=
  ⟨rfl, rfl, rfl⟩

/-- C3: the module performs no validation of its own: the five cluster
fields are handed verbatim, in source order, to the library, and the
build succeeds exactly when the library accepts all of them; when the
build fails no rd_kafka_new call is attempted at all. -/
theorem C3_theorem (env : RdEnv) (c : SorceryKafkaCluster) (p : SorceryKafkaProducer)
    (st : ModState) :
    (build_rdkafka_cluster_config env c st).1 =
      (if (env.confNewOk && env.confSetOk "metadata.broker.list" c.brokers &&
           env.confSetOk "security.protocol" c.security_protocol &&
           env.confSetOk "sasl.mechanism" c.sasl_mechanism &&
           env.confSetOk "sasl.username" c.sasl_username &&
           env.confSetOk "sasl.password" c.sasl_password) = true then
        some [("metadata.broker.list", c.brokers),
              ("security.protocol", c.security_protocol),
              ("sasl.mechanism", c.sasl_mechanism),
              ("sasl.username", c.sasl_username),
              ("sasl.password", c.sasl_password)]
       else none) ∧
    (new_kafka_producer env c p st).2.trace.countP isClientAttempt =
      st.trace.countP isClientAttempt +
        (if ((build_rdkafka_cluster_config env c st).1.isSome && env.allocProducerOk) = true
         then 1 else 0) := by
  cases hc : env.confNewOk <;>
  cases h1 : env.confSetOk "metadata.broker.list" c.brokers <;>
  cases h2 : env.confSetOk "security.protocol" c.security_protocol <;>
  cases h3 : env.confSetOk "sasl.mechanism" c.sasl_mechanism <;>
  cases h4 : env.confSetOk "sasl.username" c.sasl_username <;>
  cases h5 : env.confSetOk "sasl.password" c.sasl_password <;>
  cases ha : env.allocProducerOk <;>
  constructor <;>
  simp [build_rdkafka_cluster_config, new_kafka_producer, emit, apply_ite,
    hc, h1, h2, h3, h4, h5, ha, List.countP_append, List.countP_cons, isClientAttempt]

end ResKafka

namespace ResKafka

/-- C1 counterexample: with two producers Pa and Pb on the same cluster
C, one bound topic each, the pass runs without crash and performs two
client creations for the single (C, producer) pair: the second use of
the pair creates a fresh connection instead of returning the first
handle with an incremented reference count. -/
theorem C1_counterexample :
    runCrashed (process_all_clusters envOk confTwo ModState.init) = false ∧
    pairClientCreates "C" Role.producer
      (runTrace (process_all_clusters envOk confTwo ModState.init)) = 2 :=
  ⟨rfl, by decide⟩

/-- C1: at most one producer client is live at any instant of any pass,
but only because processing is sequential and each producer entity with
bound topics creates its own connection and destroys it before the next
entity runs; a (cluster, role) pair used by two producer entities sees
two creations and two destructions, with no sharing and no reference
counting. -/
theorem C1_theorem :
    (∀ (env : RdEnv) (conf : KafkaConf) (n : Nat),
      0 ≤ clientsLive ((runTrace (process_all_clusters env conf ModState.init)).take n) ∧
      clientsLive ((runTrace (process_all_clusters env conf ModState.init)).take n) ≤ 1) ∧
    pairClientCreates "C" Role.producer
      (runTrace (process_all_clusters envOk confTwo ModState.init)) = 2 ∧
    pairClientDestroys "C" Role.producer
      (runTrace (process_all_clusters envOk confTwo ModState.init)) = 2 := by
  refine ⟨?_, by decide, by decide⟩
  intro env conf n
  cases hr : process_all_clusters env conf ModState.init with
  | error e =>
    simp [runTrace, List.take_nil, clientsLive]
  | ok st1 =>
    obtain ⟨d, hd, hb, hz⟩ := process_all_clusters_seg hr
    have hinit : st1.trace = d := by rw [hd]; rfl
    simp only [runTrace, hinit]
    exact hb n

/-- C2 counterexample: after a successful, crash-free load of the
configuration with cluster C1, producer P1 and topic T1, the number of
live producer connections for C1 is zero, not one: the connection was
created during the pass and destroyed before load_module returned. -/
theorem C2_counterexample :
    loadDeclined (load_module senvOk envOk confC2) = false ∧
    loadCrashed (load_module senvOk envOk confC2) = false ∧
    clientsLive (loadTrace (load_module senvOk envOk confC2)) = 0 := by
  decide

/-- C2: loading the C1/P1/T1 configuration creates the C1 producer
connection exactly once and destroys it before load returns, and creates
exactly one topic handle for T1 which is never destroyed: its record
leaks with reference count one while no live connection remains. -/
theorem C2_theorem :
    pairClientCreates "C1" Role.producer (loadTrace (load_module senvOk envOk confC2)) = 1 ∧
    pairClientDestroys "C1" Role.producer (loadTrace (load_module senvOk envOk confC2)) = 1 ∧
    topicHandleCreates "orders" (loadTrace (load_module senvOk envOk confC2)) = 1 ∧
    topicHandleDestroys "orders" (loadTrace (load_module senvOk envOk confC2)) = 0 ∧
    loadTopicRecs (load_module senvOk envOk confC2) =
      [{ rc := 1, hasRd := true, topicName := "orders" }] ∧
    clientsLive (loadTrace (load_module senvOk envOk confC2)) = 0 := by
  decide

/-- C6 counterexample: running the reconciliation pass twice over the
unchanged C1/P1/T1 configuration is not a no-op: the first pass performs
one client creation and the second pass performs one more. -/
theorem C6_counterexample :
    pairClientCreates "C1" Role.producer
      (runTrace (process_all_clusters envOk confC2 ModState.init)) = 1 ∧
    pairClientCreates "C1" Role.producer
      (runTrace (process_all_twice envOk confC2 ModState.init)) = 2 := by
  decide

/-- C6: reload_module performs no reconciliation at all, so a reload
after load adds no resource operations; but running the reconciliation
pass itself twice repeats every creation and destruction, because no
generation diff exists: the second pass over the unchanged configuration
adds one more creation and one more destruction. -/
theorem C6_theorem :
    (∀ st : ModState, reload_module st = (0, st)) ∧
    pairClientCreates "C1" Role.producer
      (runTrace (process_all_clusters envOk confC2 ModState.init)) = 1 ∧
    pairClientCreates "C1" Role.producer
      (runTrace (process_all_twice envOk confC2 ModState.init)) = 2 ∧
    pairClientDestroys "C1" Role.producer
      (runTrace (process_all_twice envOk confC2 ModState.init)) = 2 :=
  ⟨fun _ => rfl, by decide, by decide, by decide⟩

/-- C7 counterexample: cluster C1 persists unchanged across a reload of
the C1/P1/T1 configuration, yet between the passes it has zero live
connections: load succeeded without crash, left zero live clients, and
reload neither built nor tore down anything. -/
theorem C7_counterexample :
    loadDeclined (load_module senvOk envOk confC2) = false ∧
    loadCrashed (load_module senvOk envOk confC2) = false ∧
    clientsLive (load_then_reload_trace) = 0 := by
  decide

/-- C7: reload_module changes nothing (no teardown, no build, so the
ordering clause is vacuous), and connections never survive a pass in the
first place: every crash-free pass from a fresh state ends with zero
live clients, so a persisting entity sits at zero connections between
generations. -/
theorem C7_theorem :
    (∀ st : ModState, reload_module st = (0, st)) ∧
    (∀ (env : RdEnv) (conf : KafkaConf),
      clientsLive (runTrace (process_all_clusters env conf ModState.init)) = 0) ∧
    clientsLive load_then_reload_trace = 0 := by
  refine ⟨fun _ => rfl, ?_, by decide⟩
  intro env conf
  cases hr : process_all_clusters env conf ModState.init with
  | error e => simp [runTrace, clientsLive]
  | ok st1 =>
    obtain ⟨d, hd, hb, hz⟩ := process_all_clusters_seg hr
    have hinit : st1.trace = d := by rw [hd]; rfl
    simp only [runTrace, hinit]
    exact hz

/-- C8 counterexample: load_module also declines when only the producer
observer registration fails, although the registry opened and all four
entity type registrations succeeded; failure to open the registry and
failure to register an entity type are not the only fatal failures. -/
theorem C8_counterexample :
    senvObsFail.openOk = true ∧
    senvObsFail.registerClusterOk = true ∧
    senvObsFail.registerTopicOk = true ∧
    senvObsFail.registerProducerOk = true ∧
    senvObsFail.registerConsumerOk = true ∧
    loadDeclined (load_module senvObsFail envOk confC2) = true := by
  decide

/-- C8: load declines exactly when the registry open, one of the four
entity type registrations, or the producer observer registration fails;
and entity-level failure is isolated at the cluster, producer and
consumer level: with cluster A rejected by the library, the pass still
runs without crash, creates no client for A, and still creates the
client and binds the topic for the healthy cluster B. -/
theorem C8_theorem :
    (∀ senv : SorceryEnv,
      loadDeclined (load_module senv envOk confC2) =
        (!senv.openOk || !senv.registerClusterOk || !senv.registerTopicOk ||
         !senv.registerProducerOk || !senv.observerAddOk || !senv.registerConsumerOk)) ∧
    runCrashed (process_all_clusters envIso confIso ModState.init) = false ∧
    pairClientCreates "A" Role.producer
      (runTrace (process_all_clusters envIso confIso ModState.init)) = 0 ∧
    pairClientCreates "B" Role.producer
      (runTrace (process_all_clusters envIso confIso ModState.init)) = 1 ∧
    topicHandleCreates "tb"
      (runTrace (process_all_clusters envIso confIso ModState.init)) = 1 := by
  refine ⟨?_, by decide, by decide, by decide, by decide⟩
  intro senv
  obtain ⟨o, rc, rt, rp, rcn, ob⟩ := senv
  cases o <;> cases rc <;> cases rt <;> cases rp <;> cases rcn <;> cases ob <;> decide

end ResKafka
